import Mathlib

/-!
Verification of the route-planning core of the repository: the graph weight
model, the criterion dispatch of `find_best_route`, and the statistics
aggregation of `calculate_route_statistics`.

Numbers are embedded as exact rationals (`ℚ`).  Python's `round(x, 4)` is
modelled by `round4`, which rounds half-to-even exactly as Python's `round`
does on exact decimal ties.  Edge attribute bags are records of optional
rationals mirroring the networkx per-edge attribute dicts; `Option.getD`
models `dict.get(key, default)`.
-/

/-- Vehicle parameter from the source: `AVERAGE_SPEED_KMH = 30`. -/
def AVERAGE_SPEED_KMH : ℚ := 30

/-- Vehicle parameter from the source: `FUEL_CONSUMPTION_PER_KM = 0.1`. -/
def FUEL_CONSUMPTION_PER_KM : ℚ := 1/10

/-- Vehicle parameter from the source: `FUEL_COST_PER_LITER = 5.5`. -/
def FUEL_COST_PER_LITER : ℚ := 11/2

/-- Round a rational to the nearest integer, ties to even (Python `round`). -/
def roundHalfEven (q : ℚ) : ℤ :=
  if q - ⌊q⌋ < 1/2 then ⌊q⌋
  else if (1:ℚ)/2 < q - ⌊q⌋ then ⌊q⌋ + 1
  else if ⌊q⌋ % 2 = 0 then ⌊q⌋ else ⌊q⌋ + 1

/-- Python's `round(q, 4)`: round to 4 decimal places, ties to even. -/
def round4 (q : ℚ) : ℚ := (roundHalfEven (q * 10000) : ℚ) / 10000

theorem roundHalfEven_intCast (n : ℤ) : roundHalfEven (n : ℚ) = n := by
  simp [roundHalfEven, Int.floor_intCast]

theorem abs_roundHalfEven_sub (q : ℚ) : |(roundHalfEven q : ℚ) - q| ≤ 1/2 := by
  have h0 : (0:ℚ) ≤ q - ⌊q⌋ := by
    have := Int.floor_le q
    linarith
  have h1 : q - ⌊q⌋ < 1 := by
    have := Int.lt_floor_add_one q
    linarith
  unfold roundHalfEven
  split_ifs with hlt hgt heven
  · rw [abs_le]; constructor <;> linarith
  · rw [abs_le]; push_cast; constructor <;> linarith
  · rw [abs_le]; constructor <;> linarith
  · rw [abs_le]; push_cast; constructor <;> linarith

theorem roundHalfEven_nonneg (q : ℚ) (h : 0 ≤ q) : 0 ≤ roundHalfEven q := by
  have hf : (0:ℤ) ≤ ⌊q⌋ := Int.floor_nonneg.mpr h
  unfold roundHalfEven
  split_ifs <;> omega

theorem round4_nonneg (q : ℚ) (h : 0 ≤ q) : 0 ≤ round4 q := by
  have h1 : 0 ≤ roundHalfEven (q * 10000) :=
    roundHalfEven_nonneg _ (by positivity)
  have h2 : (0:ℚ) ≤ (roundHalfEven (q * 10000) : ℚ) := by exact_mod_cast h1
  unfold round4
  positivity

theorem abs_round4_sub (q : ℚ) : |round4 q - q| ≤ 1/20000 := by
  have h := abs_roundHalfEven_sub (q * 10000)
  have heq : round4 q - q = ((roundHalfEven (q * 10000) : ℚ) - q * 10000) / 10000 := by
    unfold round4; ring
  rw [heq, abs_div]
  have h10 : |(10000:ℚ)| = 10000 := by norm_num
  rw [h10]
  rw [div_le_iff₀ (by norm_num : (0:ℚ) < 10000)]
  calc |(roundHalfEven (q * 10000) : ℚ) - q * 10000| ≤ 1/2 := h
    _ = 1/20000 * 10000 := by norm_num

theorem round4_int_div (k : ℤ) : round4 ((k : ℚ) / 10000) = (k : ℚ) / 10000 := by
  have harg : (k : ℚ) / 10000 * 10000 = (k : ℚ) := by
    field_simp
  unfold round4
  rw [harg, roundHalfEven_intCast]

/-- Edge attribute bag: the per-edge attribute dict of the networkx graph.
`none` models an absent key; `Option.getD` models `dict.get(key, default)`. -/
structure EdgeData where
  length : Option ℚ
  grade_abs : Option ℚ
  speed_kph : Option ℚ
  travel_time : Option ℚ
deriving DecidableEq, Repr

/-- Directed multigraph edge: source node id, destination node id, attributes.
Parallel edges between the same node pair are separate list entries. -/
structure Edge where
  src : Nat
  dst : Nat
  data : EdgeData
deriving DecidableEq, Repr

/-- Graph node: identifier and planar coordinates (`x` = longitude, `y` = latitude). -/
structure Node where
  id : Nat
  x : ℚ
  y : ℚ
deriving DecidableEq, Repr

/-- Road-network graph: node list plus edge list (a directed multigraph). -/
structure Graph where
  nodes : List Node
  edges : List Edge
deriving DecidableEq, Repr

/-- The record returned by `calculate_route_statistics`, field per dict key:
distance (km), time (min), monetary cost, fuel (liters), elevation gain. -/
structure RouteStats where
  dist_km : ℚ
  time_min : ℚ
  cost : ℚ
  fuel_liters : ℚ
  elevation_gain : ℚ
deriving DecidableEq, Repr

/-- Apply a transformation to every edge's attribute bag, keeping the graph
structure (node list, edge endpoints, edge multiplicity) unchanged.  All the
in-place edge-attribute mutations of the source have this shape. -/
def mapData (φ : EdgeData → EdgeData) (g : Graph) : Graph :=
  { g with edges := g.edges.map (fun e => { e with data := φ e.data }) }

/-- The `setdefault` loop of `find_best_route`:
`for u, v, data in graph.edges(data=True): data.setdefault('length', 0)`. -/
def setdefaultLength (g : Graph) : Graph :=
  mapData (fun d => { d with length := some (d.length.getD 0) }) g

/-- Modelled from the spec: `ox.add_edge_speeds` (external collaborator, not in
src) imputes a per-edge speed, falling back to a nominal constant speed when
per-edge speed data is absent. -/
def add_edge_speeds (g : Graph) : Graph :=
  mapData (fun d => { d with speed_kph := some (d.speed_kph.getD AVERAGE_SPEED_KMH) }) g

/-- Modelled from the spec: `ox.add_edge_travel_times` (external collaborator,
not in src) derives `travel_time` on every edge from `length` and the per-edge
or nominal speed. -/
def add_edge_travel_times (g : Graph) : Graph :=
  mapData (fun d => { d with travel_time := some (d.length.getD 0 / (d.speed_kph.getD AVERAGE_SPEED_KMH * 1000 / 3600)) }) g

/-- Squared planar distance from a node to a query point. -/
def sqDist (n : Node) (x y : ℚ) : ℚ := (n.x - x) * (n.x - x) + (n.y - y) * (n.y - y)

/-- Modelled from the spec: `ox.distance.nearest_nodes` (external collaborator,
not in src) resolves a coordinate to the nearest graph node by planar
proximity; the first node wins ties. -/
def nearest_nodes (g : Graph) (x y : ℚ) : Nat :=
  match g.nodes with
  | [] => 0
  | n :: ns =>
      (ns.foldl (fun best m => if sqDist m x y < sqDist best x y then m else best) n).id

/-- Weight used for `priority == 'distancia'`: the string key `'length'`.
networkx reads a string-keyed weight as `d.get('length', 1)`, substituting 1
when the attribute is absent (the `setdefault` pass makes it always present). -/
def distanciaWeight (d : EdgeData) : ℚ := d.length.getD 1

/-- Weight used for `priority == 'tempo'`: the string key `'travel_time'`.
networkx reads a string-keyed weight as `d.get('travel_time', 1)`,
substituting 1 when the attribute is absent. -/
def tempoWeight (d : EdgeData) : ℚ := d.travel_time.getD 1

/-- The `combustivel` weight lambda of `find_best_route`, verbatim:
`d.get('length', 0) * FUEL_CONSUMPTION_PER_KM
 + (d.get('grade_abs', 0) / 100) * d.get('length', 0) * FUEL_CONSUMPTION_PER_KM`. -/
def combustivelWeight (d : EdgeData) : ℚ :=
  d.length.getD 0 * FUEL_CONSUMPTION_PER_KM
    + d.grade_abs.getD 0 / 100 * d.length.getD 0 * FUEL_CONSUMPTION_PER_KM

/-- The `custo` weight lambda of `find_best_route`, verbatim:
`(d.get('length', 0) * FUEL_CONSUMPTION_PER_KM * FUEL_COST_PER_LITER)
 + ((d.get('grade_abs', 0) / 100) * d.get('length', 0)
    * FUEL_CONSUMPTION_PER_KM * FUEL_COST_PER_LITER)`. -/
def custoWeight (d : EdgeData) : ℚ :=
  d.length.getD 0 * FUEL_CONSUMPTION_PER_KM * FUEL_COST_PER_LITER
    + d.grade_abs.getD 0 / 100 * d.length.getD 0
      * FUEL_CONSUMPTION_PER_KM * FUEL_COST_PER_LITER

/-- Destinations of the edges leaving `u` (one entry per parallel edge). -/
def successors (g : Graph) (u : Nat) : List Nat :=
  (g.edges.filter (fun e => e.src == u)).map Edge.dst

/-- All simple paths from `u` to `d` avoiding `visited`; `budget` bounds the
number of remaining steps (one budget entry is spent per edge taken). -/
def pathsAux (g : Graph) : List Node → Nat → Nat → List Nat → List (List Nat)
  | budget, u, d, visited =>
    if u = d then [[u]]
    else
      match budget with
      | [] => []
      | _ :: rest =>
        ((successors g u).filter (fun v => !(visited.contains v))).flatMap
          (fun v => (pathsAux g rest v d (v :: visited)).map (fun p => u :: p))

/-- All simple paths from `o` to `d` in `g`. -/
def simple_paths (g : Graph) (o d : Nat) : List (List Nat) :=
  pathsAux g g.nodes o d [o]

/-- Weight of the node pair `(u, v)`: the minimum of the weight over all
parallel edges from `u` to `v` (networkx multigraph weight semantics). -/
def pairWeight (g : Graph) (w : EdgeData → ℚ) (u v : Nat) : ℚ :=
  match (g.edges.filter (fun e => e.src == u && e.dst == v)).map (fun e => w e.data) with
  | [] => 0
  | c :: cs => cs.foldl min c

/-- Total weight of a node sequence: sum of `pairWeight` over consecutive pairs. -/
def pathWeight (g : Graph) (w : EdgeData → ℚ) : List Nat → ℚ
  | u :: v :: rest => pairWeight g w u v + pathWeight g w (v :: rest)
  | _ => 0

/-- Pick the minimum-weight path from a candidate list, first wins ties. -/
def selectMinPath (w : List Nat → ℚ) : List (List Nat) → Option (List Nat)
  | [] => none
  | p :: ps => some (ps.foldl (fun best q => if w q < w best then q else best) p)

/-- Modelled from the spec: `ox.shortest_path` (external collaborator, not in
src) runs a non-negative-weight shortest-path search (Dijkstra or equivalent);
it is modelled as the minimum-weight simple path, and it returns `none` when no
path from `o` to `d` exists. -/
def shortest_path (g : Graph) (o d : Nat) (w : EdgeData → ℚ) : Option (List Nat) :=
  selectMinPath (pathWeight g w) (simple_paths g o d)

/-- The only exception `find_best_route` itself raises: the `ValueError` of the
final `else` branch ("Prioridade inválida ..."). -/
inductive Err where
  | invalidPriority
deriving DecidableEq, Repr

/-- Observable operations of a `find_best_route` run, recorded in source order
so that eagerness claims (what ran before an error) can be stated. -/
inductive Op where
  | nearestNode
  | edgeSpeeds
  | edgeTravelTimes
  | lengthDefaulting
  | pathSearch
deriving DecidableEq, Repr

/-- Outcome of a `find_best_route` call: the trace of operations performed, the
final state of the graph's edge data (the source mutates the shared graph in
place), and the returned value or raised exception. -/
structure RunResult where
  trace : List Op
  graph : Graph
  result : Except Err (Option (List Nat))
deriving Repr

/-- Tail of `find_best_route` shared by the four valid criteria: the
`setdefault` loop over all edges, then `ox.shortest_path` on the result. -/
def finishSearch (g : Graph) (t : List Op) (o d : Nat) (w : EdgeData → ℚ) : RunResult :=
  { trace := t ++ [Op.lengthDefaulting, Op.pathSearch]
    graph := setdefaultLength g
    result := Except.ok (shortest_path (setdefaultLength g) o d w) }

/-- `find_best_route(graph, point_a, point_b, priority)` from the source, in
source order: nearest-node resolution of both endpoints first (the source
passes `(point[1], point[0])`, longitude then latitude), then the
speed/travel-time derivation when `priority == 'tempo'`, then the criterion
dispatch (raising `ValueError` on an unrecognized priority), then the length
`setdefault` loop, then the shortest-path call. -/
def find_best_route (g : Graph) (point_a point_b : ℚ × ℚ) (priority : String) : RunResult :=
  let orig_node := nearest_nodes g point_a.2 point_a.1
  let dest_node := nearest_nodes g point_b.2 point_b.1
  let g1 := if priority = "tempo" then add_edge_travel_times (add_edge_speeds g) else g
  let t1 := if priority = "tempo"
    then [Op.nearestNode, Op.nearestNode, Op.edgeSpeeds, Op.edgeTravelTimes]
    else [Op.nearestNode, Op.nearestNode]
  if priority = "distancia" then finishSearch g1 t1 orig_node dest_node distanciaWeight
  else if priority = "tempo" then finishSearch g1 t1 orig_node dest_node tempoWeight
  else if priority = "combustivel" then finishSearch g1 t1 orig_node dest_node combustivelWeight
  else if priority = "custo" then finishSearch g1 t1 orig_node dest_node custoWeight
  else { trace := t1, graph := g1, result := Except.error Err.invalidPriority }

/-- Consecutive node pairs of a route. -/
def consecPairs : List Nat → List (Nat × Nat)
  | u :: v :: rest => (u, v) :: consecPairs (v :: rest)
  | _ => []

/-- Choose between two parallel edges the one of smaller `length` (first wins
ties), as `ox.routing.route_to_gdf` does with its default `weight="length"`. -/
def pickShorter (best e2 : Edge) : Edge :=
  if e2.data.length.getD 0 < best.data.length.getD 0 then e2 else best

/-- The edge `route_to_gdf` selects for a consecutive node pair: the
minimum-`length` edge among the parallel edges from `u` to `v`. -/
def pickEdge (g : Graph) (u v : Nat) : Option Edge :=
  match g.edges.filter (fun e => e.src == u && e.dst == v) with
  | [] => none
  | e :: es => some (es.foldl pickShorter e)

/-- Modelled from the spec: the rows of `ox.routing.route_to_gdf(graph, route)`
(external collaborator, not in src): one attribute bag per consecutive route
pair, the minimum-length parallel edge each.  Routes produced by the search
always have an edge for every consecutive pair. -/
def route_to_gdf_rows (g : Graph) (route : List Nat) : List EdgeData :=
  (consecPairs route).filterMap (fun p => (pickEdge g p.1 p.2).map Edge.data)

/-- `calculate_route_statistics(graph, route)` from the source: sum of edge
lengths converted to km, time from the flat average speed, fuel from distance,
cost from fuel, elevation as the sum of `grade_abs` when that column exists in
the GeoDataFrame (pandas sums over the rows that have the attribute, skipping
the missing ones); every output passes through `round(_, 4)`. -/
def calculate_route_statistics (g : Graph) (route : List Nat) : RouteStats :=
  let rows := route_to_gdf_rows g route
  let total_distance_km := round4 ((rows.map (fun d => d.length.getD 0)).sum / 1000)
  let total_time_min := round4 (total_distance_km / AVERAGE_SPEED_KMH * 60)
  let fuel_used_liters := round4 (total_distance_km * FUEL_CONSUMPTION_PER_KM)
  let total_fuel_cost := round4 (fuel_used_liters * FUEL_COST_PER_LITER)
  let elevation_gain :=
    if rows.any (fun d => d.grade_abs.isSome)
    then round4 ((rows.map (fun d => d.grade_abs.getD 0)).sum)
    else 0
  { dist_km := total_distance_km
    time_min := total_time_min
    cost := total_fuel_cost
    fuel_liters := fuel_used_liters
    elevation_gain := elevation_gain }

/-- The 3-node scenario graph of the spec: A(id 0) → B(id 1) → C(id 2), edge
lengths 1000 m and 2000 m, `grade_abs` 0 on both edges. -/
def gABC : Graph :=
  { nodes := [⟨0, 0, 0⟩, ⟨1, 1, 0⟩, ⟨2, 2, 0⟩]
    edges := [⟨0, 1, ⟨some 1000, some 0, none, none⟩⟩,
              ⟨1, 2, ⟨some 2000, some 0, none, none⟩⟩] }

/-- The disconnected graph used to witness the no-route behaviour: two nodes,
no edges. -/
def gDisc : Graph := { nodes := [⟨0, 0, 0⟩, ⟨1, 5, 0⟩], edges := [] }

/-- A graph with two connected components (0→1 and 2→3), with the origin
resolved in the first component and the destination in the second. -/
def gTwoComp : Graph :=
  { nodes := [⟨0, 0, 0⟩, ⟨1, 1, 0⟩, ⟨2, 10, 0⟩, ⟨3, 11, 0⟩]
    edges := [⟨0, 1, ⟨some 100, none, none, none⟩⟩,
              ⟨2, 3, ⟨some 100, none, none, none⟩⟩] }

/-- A two-node graph whose single edge is 1 meter long: the reported cost then
rounds `0.00055` away from `fuel_used * FUEL_COST_PER_LITER`. -/
def gOneMeter : Graph :=
  { nodes := [⟨0, 0, 0⟩, ⟨1, 1, 0⟩]
    edges := [⟨0, 1, ⟨some 1, none, none, none⟩⟩] }

/-- There is an edge from `u` to `v` in `g`. -/
def hasEdge (g : Graph) (u v : Nat) : Prop :=
  ∃ e ∈ g.edges, e.src = u ∧ e.dst = v

/-- Directed reachability along the edges of `g`. -/
inductive Reaches (g : Graph) : Nat → Nat → Prop
  | refl (u : Nat) : Reaches g u u
  | step {u v w : Nat} : hasEdge g u v → Reaches g v w → Reaches g u w

theorem foldl_pickShorter_mem (es : List Edge) (e : Edge) :
    es.foldl pickShorter e = e ∨ es.foldl pickShorter e ∈ es := by
  induction es generalizing e with
  | nil => exact Or.inl rfl
  | cons b bs ih =>
    simp only [List.foldl_cons]
    rcases ih (pickShorter e b) with h | h
    · rw [h]
      unfold pickShorter
      split_ifs
      · exact Or.inr (List.mem_cons_self b bs)
      · exact Or.inl rfl
    · exact Or.inr (List.mem_cons_of_mem b h)

theorem pickEdge_mem {g : Graph} {u v : Nat} {e : Edge}
    (h : pickEdge g u v = some e) : e ∈ g.edges := by
  unfold pickEdge at h
  rcases hf : g.edges.filter (fun e => e.src == u && e.dst == v) with _ | ⟨a, as⟩
  · rw [hf] at h
    simp at h
  · rw [hf] at h
    simp only [Option.some.injEq] at h
    subst h
    have hmem : as.foldl pickShorter a ∈ a :: as := by
      rcases foldl_pickShorter_mem as a with h1 | h1
      · rw [h1]; exact List.mem_cons_self a as
      · exact List.mem_cons_of_mem a h1
    rw [← hf] at hmem
    exact List.mem_of_mem_filter hmem

theorem route_to_gdf_rows_mem {g : Graph} {route : List Nat} {d : EdgeData}
    (h : d ∈ route_to_gdf_rows g route) : ∃ e ∈ g.edges, e.data = d := by
  unfold route_to_gdf_rows at h
  rw [List.mem_filterMap] at h
  obtain ⟨p, _, hp⟩ := h
  rcases he : pickEdge g p.1 p.2 with _ | e
  · rw [he] at hp
    simp at hp
  · rw [he] at hp
    simp only [Option.map_some', Option.some.injEq] at hp
    exact ⟨e, pickEdge_mem he, hp⟩

theorem rows_sum_nonneg {g : Graph} (route : List Nat) (f : EdgeData → ℚ)
    (hg : ∀ e ∈ g.edges, 0 ≤ f e.data) :
    0 ≤ ((route_to_gdf_rows g route).map f).sum := by
  apply List.sum_nonneg
  intro x hx
  rw [List.mem_map] at hx
  obtain ⟨d, hd, rfl⟩ := hx
  obtain ⟨e, he, rfl⟩ := route_to_gdf_rows_mem hd
  exact hg e he

theorem successors_hasEdge {g : Graph} {u v : Nat} (h : v ∈ successors g u) :
    hasEdge g u v := by
  unfold successors at h
  rw [List.mem_map] at h
  obtain ⟨e, he, rfl⟩ := h
  rw [List.mem_filter] at he
  refine ⟨e, he.1, ?_, rfl⟩
  simpa using he.2

theorem pathsAux_reaches {g : Graph} (budget : List Node) (u d : Nat)
    (visited : List Nat) (p : List Nat) (hp : p ∈ pathsAux g budget u d visited) :
    Reaches g u d := by
  induction budget generalizing u visited p with
  | nil =>
    by_cases hud : u = d
    · subst hud; exact Reaches.refl u
    · simp [pathsAux, hud] at hp
  | cons b rest ih =>
    by_cases hud : u = d
    · subst hud; exact Reaches.refl u
    · rw [pathsAux] at hp
      simp only [if_neg hud] at hp
      rw [List.mem_flatMap] at hp
      obtain ⟨v, hv, hpm⟩ := hp
      rw [List.mem_map] at hpm
      obtain ⟨q, hq, rfl⟩ := hpm
      have hedge : hasEdge g u v := successors_hasEdge (List.mem_of_mem_filter hv)
      exact Reaches.step hedge (ih v (v :: visited) q hq)

theorem not_reaches_shortest_path_none {g : Graph} {o d : Nat}
    (w : EdgeData → ℚ) (h : ¬ Reaches g o d) : shortest_path g o d w = none := by
  have hempty : simple_paths g o d = [] := by
    rw [List.eq_nil_iff_forall_not_mem]
    intro p hp
    exact h (pathsAux_reaches g.nodes o d [o] p hp)
  rw [shortest_path, hempty]
  rfl

theorem hasEdge_mapData (φ : EdgeData → EdgeData) (g : Graph) (u v : Nat) :
    hasEdge (mapData φ g) u v ↔ hasEdge g u v := by
  unfold hasEdge mapData
  constructor
  · rintro ⟨e, he, hs, hd⟩
    simp only [List.mem_map] at he
    obtain ⟨e0, he0, rfl⟩ := he
    exact ⟨e0, he0, hs, hd⟩
  · rintro ⟨e, he, hs, hd⟩
    exact ⟨{ e with data := φ e.data }, List.mem_map_of_mem _ he, hs, hd⟩

theorem reaches_mapData (φ : EdgeData → EdgeData) (g : Graph) (u v : Nat) :
    Reaches (mapData φ g) u v ↔ Reaches g u v := by
  constructor <;> intro h
  · induction h with
    | refl u => exact Reaches.refl u
    | step he _ ih => exact Reaches.step ((hasEdge_mapData _ _ _ _).mp he) ih
  · induction h with
    | refl u => exact Reaches.refl u
    | step he _ ih => exact Reaches.step ((hasEdge_mapData _ _ _ _).mpr he) ih

theorem reaches_setdefaultLength (g : Graph) (u v : Nat) :
    Reaches (setdefaultLength g) u v ↔ Reaches g u v :=
  reaches_mapData _ g u v

theorem reaches_add_edge_speeds (g : Graph) (u v : Nat) :
    Reaches (add_edge_speeds g) u v ↔ Reaches g u v :=
  reaches_mapData _ g u v

theorem reaches_add_edge_travel_times (g : Graph) (u v : Nat) :
    Reaches (add_edge_travel_times g) u v ↔ Reaches g u v :=
  reaches_mapData _ g u v

/-- C1: For the concrete 3-node graph A→B→C with edge lengths 1000 m and
2000 m, `grade_abs` 0 on both edges, and the source's constants
(`AVERAGE_SPEED_KMH = 30`, fuel rate `0.1`, fuel price `5.5`), the
distance-criterion search returns the route `[A, B, C]`, and summarizing that
route yields distance 3.0 km, time 6.0 min, fuel 0.3 l, cost 1.65, and
elevation gain 0. -/
theorem distancia_concrete_scenario :
    (find_best_route gABC (0, 0) (0, 2) "distancia").result
        = Except.ok (some [0, 1, 2]) ∧
    calculate_route_statistics gABC [0, 1, 2]
        = { dist_km := 3, time_min := 6, cost := 33/20, fuel_liters := 3/10,
            elevation_gain := 0 } := by
  constructor
  · have hs1 : ("distancia" = "tempo") = False := by simp
    have hs2 : ("distancia" = "distancia") = True := by simp
    norm_num [reduceIte, hs1, hs2, find_best_route, finishSearch, nearest_nodes,
      sqDist, gABC, setdefaultLength, mapData, shortest_path, simple_paths,
      pathsAux, successors, selectMinPath, pairWeight, pathWeight, distanciaWeight]
  · norm_num [calculate_route_statistics, route_to_gdf_rows, consecPairs,
      pickEdge, pickShorter, gABC, round4, roundHalfEven,
      List.filterMap_cons, List.filterMap_nil,
      AVERAGE_SPEED_KMH, FUEL_CONSUMPTION_PER_KM, FUEL_COST_PER_LITER]

/-- C3: The fuel-criterion weight equals
`length * FUEL_CONSUMPTION_PER_KM * (1 + grade_abs / 100)` with `length` and
`grade_abs` read as 0 when absent; for non-negative length and grade the grade
term never reduces the weight below the flat-terrain base cost. -/
theorem combustivel_weight_form (d : EdgeData) :
    combustivelWeight d
        = d.length.getD 0 * FUEL_CONSUMPTION_PER_KM * (1 + d.grade_abs.getD 0 / 100) ∧
    (0 ≤ d.length.getD 0 → 0 ≤ d.grade_abs.getD 0 →
      d.length.getD 0 * FUEL_CONSUMPTION_PER_KM ≤ combustivelWeight d) := by
  constructor
  · unfold combustivelWeight
    ring
  · intro hl hgd
    unfold combustivelWeight FUEL_CONSUMPTION_PER_KM
    nlinarith [mul_nonneg hgd hl]

/-- Witness for C3 at the concrete attribute bag with length 1000 and grade 5. -/
theorem combustivel_weight_form_witness :
    (0:ℚ) ≤ (⟨some 1000, some 5, none, none⟩ : EdgeData).length.getD 0 ∧
    (0:ℚ) ≤ (⟨some 1000, some 5, none, none⟩ : EdgeData).grade_abs.getD 0 ∧
    (⟨some 1000, some 5, none, none⟩ : EdgeData).length.getD 0 * FUEL_CONSUMPTION_PER_KM
      ≤ combustivelWeight ⟨some 1000, some 5, none, none⟩ :=
  ⟨by norm_num, by norm_num,
    (combustivel_weight_form ⟨some 1000, some 5, none, none⟩).2
      (by norm_num) (by norm_num)⟩

/-- C4: The cost-criterion weight is the fuel-criterion weight multiplied by
`FUEL_COST_PER_LITER`, for every edge attribute bag. -/
theorem custo_weight_eq_combustivel_mul_price (d : EdgeData) :
    custoWeight d = combustivelWeight d * FUEL_COST_PER_LITER := by
  unfold custoWeight combustivelWeight
  ring

/-- C6 (amended): evaluating the time-criterion weight on an edge whose
attribute bag lacks `travel_time` silently yields the networkx default weight
1; no `MissingAttributeError` exists in the code. -/
theorem tempo_weight_default (d : EdgeData) (h : d.travel_time = none) :
    tempoWeight d = 1 := by
  simp [tempoWeight, h]

/-- Witness for C6's amended theorem at a concrete bag lacking `travel_time`. -/
theorem tempo_weight_default_witness :
    (⟨some 1000, some 0, none, none⟩ : EdgeData).travel_time = none ∧
    tempoWeight ⟨some 1000, some 0, none, none⟩ = 1 :=
  ⟨rfl, tempo_weight_default ⟨some 1000, some 0, none, none⟩ rfl⟩

/-- C6 counterexample to the claim as stated: on a concrete edge bag lacking
`travel_time`, the time-criterion weight evaluates to the value 1 — it is a
total function into `ℚ` (networkx's `d.get('travel_time', 1)`), so no
`MissingAttributeError` failure occurs. -/
theorem tempo_weight_no_failure :
    tempoWeight ⟨some 500, none, none, none⟩ = 1 := rfl

/-- C9: the length-defaulting pass is idempotent — running it twice leaves
every edge with exactly the same attributes as running it once. -/
theorem setdefaultLength_idempotent (g : Graph) :
    setdefaultLength (setdefaultLength g) = setdefaultLength g := by
  cases g with
  | mk ns es =>
    simp [setdefaultLength, mapData, List.map_map, Function.comp_def]

/-- C5 counterexample to the claim as stated: on a concrete invalid criterion
the search does raise the invalid-priority error, but the run's trace at that
point already contains the two nearest-node resolutions — validation does NOT
happen before nearest-node resolution. -/
theorem invalid_priority_after_nearest :
    (find_best_route gABC (0, 0) (0, 2) "pedestre").result
        = Except.error Err.invalidPriority ∧
    (find_best_route gABC (0, 0) (0, 2) "pedestre").trace
        = [Op.nearestNode, Op.nearestNode] := by
  constructor <;> rfl

/-- C5 (amended): an unrecognized criterion string raises the
invalid-priority `ValueError` before the attribute-derivation and
length-defaulting passes and before any shortest-path search (the graph is
returned unchanged and the trace holds only the two nearest-node resolutions,
which the source performs first). -/
theorem invalid_priority_eager_error (g : Graph) (pa pb : ℚ × ℚ) (p : String)
    (h1 : p ≠ "distancia") (h2 : p ≠ "tempo") (h3 : p ≠ "combustivel")
    (h4 : p ≠ "custo") :
    (find_best_route g pa pb p).result = Except.error Err.invalidPriority ∧
    (find_best_route g pa pb p).trace = [Op.nearestNode, Op.nearestNode] ∧
    (find_best_route g pa pb p).graph = g := by
  unfold find_best_route
  simp only [if_neg h1, if_neg h2, if_neg h3, if_neg h4]
  exact ⟨trivial, trivial, trivial⟩

/-- Witness for C5's amended theorem at the invalid criterion "bicicleta". -/
theorem invalid_priority_eager_error_witness :
    (find_best_route gABC (0, 0) (0, 2) "bicicleta").result
        = Except.error Err.invalidPriority ∧
    (find_best_route gABC (0, 0) (0, 2) "bicicleta").trace
        = [Op.nearestNode, Op.nearestNode] ∧
    (find_best_route gABC (0, 0) (0, 2) "bicicleta").graph = gABC :=
  invalid_priority_eager_error gABC (0, 0) (0, 2) "bicicleta"
    (by decide) (by decide) (by decide) (by decide)

/-- C10: atomicity on an invalid criterion — when the criterion string is
unrecognized the graph's edge attributes are left unchanged: neither the
speed/travel-time derivation nor the length-defaulting pass has run. -/
theorem invalid_priority_graph_unchanged (g : Graph) (pa pb : ℚ × ℚ)
    (p : String)
    (h : ¬ (p = "distancia" ∨ p = "tempo" ∨ p = "combustivel" ∨ p = "custo")) :
    (find_best_route g pa pb p).graph = g ∧
    Op.edgeSpeeds ∉ (find_best_route g pa pb p).trace ∧
    Op.edgeTravelTimes ∉ (find_best_route g pa pb p).trace ∧
    Op.lengthDefaulting ∉ (find_best_route g pa pb p).trace := by
  push_neg at h
  obtain ⟨h1, h2, h3, h4⟩ := h
  unfold find_best_route
  simp only [if_neg h1, if_neg h2, if_neg h3, if_neg h4]
  refine ⟨trivial, ?_, ?_, ?_⟩ <;> decide

/-- Witness for C10 at the invalid criterion "caminhada". -/
theorem invalid_priority_graph_unchanged_witness :
    (find_best_route gABC (0, 0) (0, 2) "caminhada").graph = gABC ∧
    Op.edgeSpeeds ∉ (find_best_route gABC (0, 0) (0, 2) "caminhada").trace ∧
    Op.edgeTravelTimes ∉ (find_best_route gABC (0, 0) (0, 2) "caminhada").trace ∧
    Op.lengthDefaulting ∉ (find_best_route gABC (0, 0) (0, 2) "caminhada").trace :=
  invalid_priority_graph_unchanged gABC (0, 0) (0, 2) "caminhada" (by decide)

theorem round4_eq_self_of_int (q : ℚ) (k : ℤ) (h : q * 10000 = (k : ℚ)) :
    round4 q = q := by
  have hq : q = (k : ℚ) / 10000 := by
    rw [eq_div_iff (by norm_num : (10000:ℚ) ≠ 0)]
    exact h
  rw [hq, round4_int_div]

/-- C7 counterexample to the claim as stated: on the concrete scenario route
the reported time is 6 minutes, but `dist_km * AVERAGE_SPEED_KMH / 60` is 1.5
— the code computes time as `dist_km / AVERAGE_SPEED_KMH * 60` instead. -/
theorem time_formula_counterexample :
    ¬ ((calculate_route_statistics gABC [0, 1, 2]).dist_km * AVERAGE_SPEED_KMH / 60
        = (calculate_route_statistics gABC [0, 1, 2]).time_min) := by
  norm_num [calculate_route_statistics, route_to_gdf_rows, consecPairs,
    pickEdge, pickShorter, gABC, round4, roundHalfEven,
    List.filterMap_cons, List.filterMap_nil,
    AVERAGE_SPEED_KMH, FUEL_CONSUMPTION_PER_KM, FUEL_COST_PER_LITER]

/-- C7 (amended): for every route on a graph whose edges carry non-negative
lengths and grades, all five reported metrics are non-negative, and
`dist_km / AVERAGE_SPEED_KMH * 60 == time_min` holds exactly (the claim's
`dist_km * AVERAGE_SPEED_KMH / 60` is corrected to the code's formula),
independent of the criterion that produced the route. -/
theorem stats_nonneg_and_time_formula (g : Graph) (route : List Nat)
    (hg : ∀ e ∈ g.edges, 0 ≤ e.data.length.getD 0 ∧ 0 ≤ e.data.grade_abs.getD 0) :
    (0 ≤ (calculate_route_statistics g route).dist_km ∧
     0 ≤ (calculate_route_statistics g route).time_min ∧
     0 ≤ (calculate_route_statistics g route).cost ∧
     0 ≤ (calculate_route_statistics g route).fuel_liters ∧
     0 ≤ (calculate_route_statistics g route).elevation_gain) ∧
    (calculate_route_statistics g route).dist_km / AVERAGE_SPEED_KMH * 60
        = (calculate_route_statistics g route).time_min := by
  have hsum : 0 ≤ ((route_to_gdf_rows g route).map (fun d => d.length.getD 0)).sum :=
    rows_sum_nonneg route _ (fun e he => (hg e he).1)
  have hdist : (calculate_route_statistics g route).dist_km
      = round4 (((route_to_gdf_rows g route).map (fun d => d.length.getD 0)).sum / 1000) := rfl
  have hdist0 : 0 ≤ (calculate_route_statistics g route).dist_km := by
    rw [hdist]
    exact round4_nonneg _ (by positivity)
  have htime : (calculate_route_statistics g route).time_min
      = round4 ((calculate_route_statistics g route).dist_km / AVERAGE_SPEED_KMH * 60) := rfl
  have hfuel : (calculate_route_statistics g route).fuel_liters
      = round4 ((calculate_route_statistics g route).dist_km * FUEL_CONSUMPTION_PER_KM) := rfl
  have hfuel0 : 0 ≤ (calculate_route_statistics g route).fuel_liters := by
    rw [hfuel]
    exact round4_nonneg _ (mul_nonneg hdist0 (by norm_num [FUEL_CONSUMPTION_PER_KM]))
  have hcost : (calculate_route_statistics g route).cost
      = round4 ((calculate_route_statistics g route).fuel_liters * FUEL_COST_PER_LITER) := rfl
  have hk : (calculate_route_statistics g route).dist_km
      = ((roundHalfEven ((((route_to_gdf_rows g route).map (fun d => d.length.getD 0)).sum / 1000) * 10000) : ℤ) : ℚ) / 10000 := rfl
  refine ⟨⟨hdist0, ?_, ?_, hfuel0, ?_⟩, ?_⟩
  · rw [htime]
    refine round4_nonneg _ (mul_nonneg (div_nonneg hdist0 ?_) ?_) <;>
      norm_num [AVERAGE_SPEED_KMH]
  · rw [hcost]
    exact round4_nonneg _ (mul_nonneg hfuel0 (by norm_num [FUEL_COST_PER_LITER]))
  · have helev : (calculate_route_statistics g route).elevation_gain
        = if (route_to_gdf_rows g route).any (fun d => d.grade_abs.isSome)
          then round4 (((route_to_gdf_rows g route).map (fun d => d.grade_abs.getD 0)).sum)
          else 0 := rfl
    rw [helev]
    split
    · exact round4_nonneg _ (rows_sum_nonneg route _ (fun e he => (hg e he).2))
    · exact le_refl 0
  · rw [htime]
    refine (round4_eq_self_of_int _
      (2 * roundHalfEven ((((route_to_gdf_rows g route).map (fun d => d.length.getD 0)).sum / 1000) * 10000)) ?_).symm
    rw [hk]
    unfold AVERAGE_SPEED_KMH
    push_cast
    ring

/-- Witness for C7's amended theorem at the concrete scenario graph and route. -/
theorem stats_nonneg_and_time_formula_witness :
    (0 ≤ (calculate_route_statistics gABC [0, 1, 2]).dist_km ∧
     0 ≤ (calculate_route_statistics gABC [0, 1, 2]).time_min ∧
     0 ≤ (calculate_route_statistics gABC [0, 1, 2]).cost ∧
     0 ≤ (calculate_route_statistics gABC [0, 1, 2]).fuel_liters ∧
     0 ≤ (calculate_route_statistics gABC [0, 1, 2]).elevation_gain) ∧
    (calculate_route_statistics gABC [0, 1, 2]).dist_km / AVERAGE_SPEED_KMH * 60
        = (calculate_route_statistics gABC [0, 1, 2]).time_min :=
  stats_nonneg_and_time_formula gABC [0, 1, 2] (by norm_num [gABC])

/-- C8 (amended): the reported fuel and cost are in each case the 4-decimal
rounding of the claimed product — `fuel == round4(dist_km * rate)` and
`cost == round4(fuel * price)` — hence each is within half of the fourth
decimal place (1/20000) of the exact product; the exact equalities of the
claim fail in general because the products can need a fifth decimal place. -/
theorem stats_rounded_consistency (g : Graph) (route : List Nat) :
    (calculate_route_statistics g route).fuel_liters
        = round4 ((calculate_route_statistics g route).dist_km * FUEL_CONSUMPTION_PER_KM) ∧
    (calculate_route_statistics g route).cost
        = round4 ((calculate_route_statistics g route).fuel_liters * FUEL_COST_PER_LITER) ∧
    |(calculate_route_statistics g route).fuel_liters
        - (calculate_route_statistics g route).dist_km * FUEL_CONSUMPTION_PER_KM| ≤ 1/20000 ∧
    |(calculate_route_statistics g route).cost
        - (calculate_route_statistics g route).fuel_liters * FUEL_COST_PER_LITER| ≤ 1/20000 :=
  ⟨rfl, rfl, abs_round4_sub _, abs_round4_sub _⟩

/-- C8 counterexample to the claim as stated: on a route over a single 1-meter
edge, the reported fuel is 0.0001 l, so `fuel * FUEL_COST_PER_LITER` is
0.00055, but the reported cost is the rounded 0.0006 — the exact equality
`cost == fuel_used * FUEL_PRICE` fails. -/
theorem cost_exact_identity_counterexample :
    ¬ ((calculate_route_statistics gOneMeter [0, 1]).cost
        = (calculate_route_statistics gOneMeter [0, 1]).fuel_liters * FUEL_COST_PER_LITER) := by
  norm_num [calculate_route_statistics, route_to_gdf_rows, consecPairs,
    pickEdge, pickShorter, gOneMeter, round4, roundHalfEven,
    List.filterMap_cons, List.filterMap_nil,
    AVERAGE_SPEED_KMH, FUEL_CONSUMPTION_PER_KM, FUEL_COST_PER_LITER]

/-- C2 counterexample to the claim as stated: on a concrete two-component
graph with origin and destination resolved in different components, the
search returns `Except.ok none` — the `None` sentinel of `ox.shortest_path` —
rather than surfacing any error to the caller. -/
theorem disconnected_returns_none_not_error :
    (find_best_route gTwoComp (0, 0) (0, 11) "distancia").result
        = Except.ok none ∧
    (find_best_route gTwoComp (0, 0) (0, 11) "distancia").result
        ≠ Except.error Err.invalidPriority := by
  have hs1 : ("distancia" = "tempo") = False := by simp
  have hs2 : ("distancia" = "distancia") = True := by simp
  have key : (find_best_route gTwoComp (0, 0) (0, 11) "distancia").result
      = Except.ok none := by
    norm_num [reduceIte, hs1, hs2, find_best_route, finishSearch, nearest_nodes,
      sqDist, gTwoComp, setdefaultLength, mapData, shortest_path, simple_paths,
      pathsAux, successors, selectMinPath, pairWeight, pathWeight, distanciaWeight]
  refine ⟨key, ?_⟩
  rw [key]
  simp

/-- C2 (amended): for every graph and coordinate pair whose resolved nodes are
not connected by any directed path, and every valid criterion, the search
returns `Except.ok none` (the `None` of `ox.shortest_path`): no exception is
raised and no empty or partial node sequence is returned. -/
theorem no_route_yields_none (g : Graph) (pa pb : ℚ × ℚ) (p : String)
    (hp : p = "distancia" ∨ p = "tempo" ∨ p = "combustivel" ∨ p = "custo")
    (h : ¬ Reaches g (nearest_nodes g pa.2 pa.1) (nearest_nodes g pb.2 pb.1)) :
    (find_best_route g pa pb p).result = Except.ok none := by
  rcases hp with rfl | rfl | rfl | rfl
  · have hs1 : ("distancia" = "tempo") = False := by simp
    have hs2 : ("distancia" = "distancia") = True := by simp
    simp only [find_best_route, finishSearch, hs1, hs2, reduceIte]
    rw [not_reaches_shortest_path_none]
    intro hr
    exact h ((reaches_setdefaultLength g _ _).mp hr)
  · have hs2 : ("tempo" = "tempo") = True := by simp
    have hs1 : ("tempo" = "distancia") = False := by simp
    simp only [find_best_route, finishSearch, hs1, hs2, reduceIte]
    rw [not_reaches_shortest_path_none]
    intro hr
    exact h ((reaches_add_edge_speeds g _ _).mp
      ((reaches_add_edge_travel_times _ _ _).mp
        ((reaches_setdefaultLength _ _ _).mp hr)))
  · have hs1 : ("combustivel" = "tempo") = False := by simp
    have hs2 : ("combustivel" = "distancia") = False := by simp
    have hs3 : ("combustivel" = "combustivel") = True := by simp
    simp only [find_best_route, finishSearch, hs1, hs2, hs3, reduceIte]
    rw [not_reaches_shortest_path_none]
    intro hr
    exact h ((reaches_setdefaultLength g _ _).mp hr)
  · have hs1 : ("custo" = "tempo") = False := by simp
    have hs2 : ("custo" = "distancia") = False := by simp
    have hs3 : ("custo" = "combustivel") = False := by simp
    have hs4 : ("custo" = "custo") = True := by simp
    simp only [find_best_route, finishSearch, hs1, hs2, hs3, hs4, reduceIte]
    rw [not_reaches_shortest_path_none]
    intro hr
    exact h ((reaches_setdefaultLength g _ _).mp hr)

/-- Witness for C2's amended theorem on the concrete edgeless two-node graph. -/
theorem no_route_yields_none_witness :
    (find_best_route gDisc (0, 0) (0, 5) "distancia").result = Except.ok none := by
  apply no_route_yields_none gDisc (0, 0) (0, 5) "distancia" (Or.inl rfl)
  have h0 : nearest_nodes gDisc (0, 0).2 (0, 0).1 = 0 := by
    norm_num [nearest_nodes, gDisc, sqDist]
  have h1 : nearest_nodes gDisc (0, 5).2 (0, 5).1 = 1 := by
    norm_num [nearest_nodes, gDisc, sqDist]
  rw [h0, h1]
  intro hr
  cases hr with
  | step he hr2 =>
    obtain ⟨e, he0, _⟩ := he
    simp [gDisc] at he0
